import Mathlib

/-!
# Verification of the polisight policy-impact calculation engine

A shallow embedding of `src/lib/services/impact-calculator.ts`: the safe
arithmetic-expression evaluator (tokenizer + recursive-descent parsing +
evaluation) and the impact-calculation orchestration layer
(`calculateImpact`), together with theorems checking the natural-language
specification against this embedding.

Modelling conventions:
* JavaScript numbers are idealized as exact rationals (`ℚ`); the special
  values `NaN`, `Infinity` and `-Infinity` that the evaluator can produce
  (e.g. `Math.min()` of an empty argument list) are modelled explicitly by
  the carrier `JsNum`, with IEEE-style propagation rules, so that the
  evaluator's final `isNaN`/`isFinite` guard is represented faithfully.
  Binary floating-point rounding and overflow are idealized away (exact
  arithmetic), and `-0` is identified with `0`.
* JavaScript records (the variable map, the profile) are modelled as pure
  records/association lists: only own keys exist.  (The JS `in` operator
  also sees inherited prototype properties such as `toString`; those
  artifacts yield garbage tokens that the evaluator's final type/finiteness
  guard rejects anyway, so the observable success/failure behaviour agrees
  with the pure-record model.)
* `null` and `undefined` both become `Option.none`; the code treats them
  identically (`value == null` / `=== undefined || === null` checks).
-/

/-! ## Character classes (JS regexes `\s`, `\d`, `[a-zA-Z_]`, `[a-zA-Z_0-9]`) -/

/-- JS `/\s/` on the characters appearing in formula expressions. -/
def isSpaceCh (c : Char) : Bool :=
  c = ' ' ∨ c = '\t' ∨ c = '\n' ∨ c = '\r'

/-- JS `/\d/`: an ASCII digit. -/
def isDigitCh (c : Char) : Bool :=
  48 ≤ c.toNat ∧ c.toNat ≤ 57

/-- JS `/[a-zA-Z_]/`: start of an identifier. -/
def isIdentStart (c : Char) : Bool :=
  (65 ≤ c.toNat ∧ c.toNat ≤ 90) ∨ (97 ≤ c.toNat ∧ c.toNat ≤ 122) ∨ c.toNat = 95

/-- JS `/[a-zA-Z_0-9]/`: identifier continuation character. -/
def isIdentCh (c : Char) : Bool :=
  isIdentStart c ∨ isDigitCh c

/-- The characters consumed by the tokenizer's number scan: digits and `.`. -/
def isNumCh (c : Char) : Bool :=
  isDigitCh c ∨ c = '.'

/-- One of the four binary-operator characters `+ - * /`. -/
def isOpCh (c : Char) : Bool :=
  c = '+' ∨ c = '-' ∨ c = '*' ∨ c = '/'

/-! ## JS `parseFloat`, idealized over ℚ

`parseFloat` skips leading whitespace, reads an optional sign, a run of
digits, an optional fraction and an optional exponent, ignores any trailing
garbage, and returns `NaN` (here: `none`) when no digit was read.  (The
`Infinity` literal accepted by the real `parseFloat` is outside the exact
rational idealization and is not modelled.) -/

/-- Numeric value of an ASCII digit character. -/
def digitVal (c : Char) : ℕ := c.toNat - 48

/-- The natural number denoted by a list of ASCII digit characters. -/
def natOfDigits (ds : List Char) : ℕ :=
  ds.foldl (fun acc c => 10 * acc + digitVal c) 0

/-- JS `parseFloat`, returning `none` in place of `NaN`. -/
def parseFloatQ (s : String) : Option ℚ :=
  let cs := s.toList.dropWhile isSpaceCh
  let signRest : ℚ × List Char :=
    match cs with
    | '-' :: t => (-1, t)
    | '+' :: t => (1, t)
    | t => (1, t)
  let sign := signRest.1
  let cs1 := signRest.2
  let ipart := cs1.takeWhile isDigitCh
  let cs2 := cs1.dropWhile isDigitCh
  let fracRest : List Char × List Char :=
    match cs2 with
    | '.' :: t => (t.takeWhile isDigitCh, t.dropWhile isDigitCh)
    | t => ([], t)
  let fpart := fracRest.1
  let cs3 := fracRest.2
  if ipart.isEmpty ∧ fpart.isEmpty then none
  else
    let mantissa : ℚ := (natOfDigits ipart : ℚ) + (natOfDigits fpart : ℚ) / (10 : ℚ) ^ fpart.length
    let exp : ℤ :=
      match cs3 with
      | e :: t =>
        if e = 'e' ∨ e = 'E' then
          let esignRest : ℤ × List Char :=
            match t with
            | '-' :: t2 => (-1, t2)
            | '+' :: t2 => (1, t2)
            | t2 => (1, t2)
          let eds := esignRest.2.takeWhile isDigitCh
          if eds.isEmpty then 0 else esignRest.1 * (natOfDigits eds : ℤ)
        else 0
      | [] => 0
    some (sign * mantissa * (10 : ℚ) ^ exp)

/-! ## Association-list maps (JS plain objects, own keys only) -/

/-- First-match lookup in an association list (JS property read). -/
def lookupPair {α : Type} : List (String × α) → String → Option α
  | [], _ => none
  | (k, v) :: rest, key => if k = key then some v else lookupPair rest key

/-- JS property assignment `m[key] = v`: overwrite in place, or append. -/
def upsert {α : Type} : List (String × α) → String → α → List (String × α)
  | [], key, v => [(key, v)]
  | (k, w) :: rest, key, v =>
    if k = key then (k, v) :: rest else (k, w) :: upsert rest key v

/-! ## Tokens and the tokenizer (`tokenize`, impact-calculator.ts lines 47-139) -/

/-- The token type of the safe expression evaluator. -/
inductive Token where
  | number (value : ℚ)
  | operator (value : Char)
  | paren (value : Char)
  | comma
  | function (value : String)
deriving DecidableEq, Repr

/-- The keys of the `MATH_FUNCTIONS` whitelist. -/
def mathFunctionNames : List String :=
  ["min", "max", "abs", "round", "floor", "ceil"]

/-- ASCII lower-casing of one character (`String.prototype.toLowerCase` on
the ASCII identifiers the tokenizer produces). -/
def toLowerCh (c : Char) : Char :=
  if 65 ≤ c.toNat ∧ c.toNat ≤ 90 then Char.ofNat (c.toNat + 32) else c

/-- ASCII lower-casing of an identifier given as its character list. -/
def toLowerStr (cs : List Char) : String :=
  String.mk (cs.map toLowerCh)

/-- Whether the next character (if any) is a digit: the lookahead
`/\d/.test(expression[i + 1] || '')` of the number scan. -/
def nextIsDigit : List Char → Bool
  | d :: _ => isDigitCh d
  | [] => false

/-- The character-consuming loop of `tokenize`.  Numbers are scanned as a
maximal run of digits and dots and passed to `parseFloat`; identifiers are
resolved immediately: lower-cased whitelist functions become function
tokens, exact keys of the variable map are substituted as number tokens,
and anything else aborts tokenization (`return null`).  The loop consumes
at least one character per iteration, so any `fuel ≥ length + 1` computes
the full scan; `fuel` exists only to make the recursion structural. -/
def tokenizeGo (vars : List (String × ℚ)) : ℕ → List Char → Option (List Token)
  | 0, _ => none
  | _ + 1, [] => some []
  | fuel + 1, c :: cs =>
    if isSpaceCh c then tokenizeGo vars fuel cs
    else if isDigitCh c ∨ (c = '.' ∧ nextIsDigit cs) then
      let numStr := String.mk (c :: cs.takeWhile isNumCh)
      match parseFloatQ numStr with
      | none => none
      | some value => (tokenizeGo vars fuel (cs.dropWhile isNumCh)).map (Token.number value :: ·)
    else if isOpCh c then
      (tokenizeGo vars fuel cs).map (Token.operator c :: ·)
    else if c = '(' ∨ c = ')' then
      (tokenizeGo vars fuel cs).map (Token.paren c :: ·)
    else if c = ',' then
      (tokenizeGo vars fuel cs).map (Token.comma :: ·)
    else if isIdentStart c then
      let identChars := c :: cs.takeWhile isIdentCh
      let rest := cs.dropWhile isIdentCh
      if mathFunctionNames.contains (toLowerStr identChars) then
        (tokenizeGo vars fuel rest).map (Token.function (toLowerStr identChars) :: ·)
      else
        match lookupPair vars (String.mk identChars) with
        | some v => (tokenizeGo vars fuel rest).map (Token.number v :: ·)
        | none => none
    else none

/-- `tokenize(expression, vars)` (lines 63-139). -/
def tokenize (expression : String) (vars : List (String × ℚ)) : Option (List Token) :=
  tokenizeGo vars (expression.toList.length + 1) expression.toList

section RatReducible

attribute [local semireducible] Rat.mul Rat.add Rat.sub Rat.inv

example : tokenize "2 + 3" [] =
    some [Token.number 2, Token.operator '+', Token.number 3] := by decide

example : tokenize "income * 0.02" [("income", 50000)] =
    some [Token.number 50000, Token.operator '*', Token.number (1/50)] := by decide

example : tokenize "foo + 1" [] = none := by decide

example : tokenize "MAX(1, 2)" [] =
    some [Token.function "max", Token.paren '(', Token.number 1, Token.comma,
          Token.number 2, Token.paren ')'] := by decide

end RatReducible

/-! ## JavaScript numbers: exact rationals extended with `±Infinity` and `NaN`

The parser computes in this domain so that the evaluator's final
`isNaN(result) || !isFinite(result)` guard (line 290) is represented
faithfully: e.g. `Math.min()` of an empty argument list is `Infinity`. -/

/-- A JavaScript number, idealized: exact rational, `±Infinity`, or `NaN`. -/
inductive JsNum where
  | fin (q : ℚ)
  | posInf
  | negInf
  | nan
deriving DecidableEq, Repr

/-- JS unary negation. -/
def jsNeg : JsNum → JsNum
  | .fin q => .fin (-q)
  | .posInf => .negInf
  | .negInf => .posInf
  | .nan => .nan

/-- JS addition (IEEE propagation; exact on finite values). -/
def jsAdd : JsNum → JsNum → JsNum
  | .fin a, .fin b => .fin (a + b)
  | .nan, _ => .nan
  | _, .nan => .nan
  | .posInf, .negInf => .nan
  | .negInf, .posInf => .nan
  | .posInf, _ => .posInf
  | _, .posInf => .posInf
  | .negInf, _ => .negInf
  | _, .negInf => .negInf

/-- JS subtraction: `a - b = a + (-b)` in all IEEE cases. -/
def jsSub (a b : JsNum) : JsNum := jsAdd a (jsNeg b)

/-- JS multiplication (IEEE propagation; exact on finite values). -/
def jsMul : JsNum → JsNum → JsNum
  | .fin a, .fin b => .fin (a * b)
  | .nan, _ => .nan
  | _, .nan => .nan
  | .posInf, .posInf => .posInf
  | .posInf, .negInf => .negInf
  | .negInf, .posInf => .negInf
  | .negInf, .negInf => .posInf
  | .posInf, .fin b => if 0 < b then .posInf else if b < 0 then .negInf else .nan
  | .fin a, .posInf => if 0 < a then .posInf else if a < 0 then .negInf else .nan
  | .negInf, .fin b => if 0 < b then .negInf else if b < 0 then .posInf else .nan
  | .fin a, .negInf => if 0 < a then .negInf else if a < 0 then .posInf else .nan

/-- JS division (IEEE propagation; exact on finite values; signed zeros
idealized to `0`).  The expression evaluator only divides after checking
`right === 0`, so the finite-by-zero case is unreachable there. -/
def jsDiv : JsNum → JsNum → JsNum
  | .nan, _ => .nan
  | _, .nan => .nan
  | .fin a, .fin b =>
    if b = 0 then (if a = 0 then .nan else if 0 < a then .posInf else .negInf)
    else .fin (a / b)
  | .fin _, .posInf => .fin 0
  | .fin _, .negInf => .fin 0
  | .posInf, .fin b => if 0 ≤ b then .posInf else .negInf
  | .negInf, .fin b => if 0 ≤ b then .negInf else .posInf
  | .posInf, _ => .nan
  | .negInf, _ => .nan

/-- Two-argument minimum as `Math.min` computes it: `NaN` is absorbing. -/
def jsMin2 : JsNum → JsNum → JsNum
  | .nan, _ => .nan
  | _, .nan => .nan
  | .negInf, _ => .negInf
  | _, .negInf => .negInf
  | .posInf, b => b
  | a, .posInf => a
  | .fin a, .fin b => .fin (min a b)

/-- Two-argument maximum as `Math.max` computes it: `NaN` is absorbing. -/
def jsMax2 : JsNum → JsNum → JsNum
  | .nan, _ => .nan
  | _, .nan => .nan
  | .posInf, _ => .posInf
  | _, .posInf => .posInf
  | .negInf, b => b
  | a, .negInf => a
  | .fin a, .fin b => .fin (max a b)

/-- `Math.min(...args)`: starts from `Infinity`, so `Math.min()` is `Infinity`. -/
def jsMin (args : List JsNum) : JsNum := args.foldl jsMin2 .posInf

/-- `Math.max(...args)`: starts from `-Infinity`, so `Math.max()` is `-Infinity`. -/
def jsMax (args : List JsNum) : JsNum := args.foldl jsMax2 .negInf

/-- `Math.abs` on one JS number. -/
def jsAbs : JsNum → JsNum
  | .fin q => .fin |q|
  | .nan => .nan
  | _ => .posInf

/-- `Math.round` (round half toward `+∞`), idealized exactly. -/
def jsRound : JsNum → JsNum
  | .fin q => .fin (⌊q + 1/2⌋ : ℤ)
  | x => x

/-- `Math.floor`. -/
def jsFloor : JsNum → JsNum
  | .fin q => .fin (⌊q⌋ : ℤ)
  | x => x

/-- `Math.ceil`. -/
def jsCeil : JsNum → JsNum
  | .fin q => .fin (⌈q⌉ : ℤ)
  | x => x

/-- A one-argument `Math` function applied to a JS argument list: extra
arguments are ignored, a missing argument is `undefined`, whose numeric
coercion is `NaN`. -/
def applyUnary (op : JsNum → JsNum) (args : List JsNum) : JsNum :=
  match args with
  | [] => .nan
  | a :: _ => op a

/-- `MATH_FUNCTIONS[funcName](...args)` for the six whitelisted names
(lines 54-61); `none` for a name outside the table (the parser's
`Unknown function` throw, unreachable from the tokenizer). -/
def applyMathFunction (funcName : String) (args : List JsNum) : Option JsNum :=
  match funcName with
  | "min" => some (jsMin args)
  | "max" => some (jsMax args)
  | "abs" => some (applyUnary jsAbs args)
  | "round" => some (applyUnary jsRound args)
  | "floor" => some (applyUnary jsFloor args)
  | "ceil" => some (applyUnary jsCeil args)
  | _ => none

/-! ## The recursive-descent parsing and evaluation pass
(`SafeExpressionParser`, lines 141-264)

The class walks the token list with a single forward cursor and evaluates
as it parses; a thrown error is modelled as `none`, and the remaining token
list takes the place of the cursor.  `fuel` only makes the recursion
structural: every recursive call strictly deepens or consumes, so any
sufficiently large fuel (the top entry point passes `8·length + 8`)
computes the same result as the JS code.  Note that `expect('paren')`
checks only the token *type*, so either parenthesis character closes (or
opens) a group — the model reproduces this. -/

mutual

/-- `parseExpression` (lines 174-184): one term, then the `+`/`-` loop. -/
def parseExprF : ℕ → List Token → Option (JsNum × List Token)
  | 0, _ => none
  | fuel + 1, ts =>
    match parseTermF fuel ts with
    | none => none
    | some (left, rest) => exprLoopF fuel left rest

/-- The `while`-loop of `parseExpression`: `('+' | '-') term` repetitions,
folded left-associatively. -/
def exprLoopF : ℕ → JsNum → List Token → Option (JsNum × List Token)
  | 0, _, _ => none
  | fuel + 1, left, ts =>
    match ts with
    | Token.operator op :: rest =>
      if op = '+' then
        match parseTermF fuel rest with
        | none => none
        | some (right, rest2) => exprLoopF fuel (jsAdd left right) rest2
      else if op = '-' then
        match parseTermF fuel rest with
        | none => none
        | some (right, rest2) => exprLoopF fuel (jsSub left right) rest2
      else some (left, ts)
    | _ => some (left, ts)

/-- `parseTerm` (lines 187-202): one factor, then the `*`/`/` loop. -/
def parseTermF : ℕ → List Token → Option (JsNum × List Token)
  | 0, _ => none
  | fuel + 1, ts =>
    match parseFactorF fuel ts with
    | none => none
    | some (left, rest) => termLoopF fuel left rest

/-- The `while`-loop of `parseTerm`: `('*' | '/') factor` repetitions,
folded left-associatively, with the `right === 0` division guard throwing
(`none`) before any division happens. -/
def termLoopF : ℕ → JsNum → List Token → Option (JsNum × List Token)
  | 0, _, _ => none
  | fuel + 1, left, ts =>
    match ts with
    | Token.operator op :: rest =>
      if op = '*' then
        match parseFactorF fuel rest with
        | none => none
        | some (right, rest2) => termLoopF fuel (jsMul left right) rest2
      else if op = '/' then
        match parseFactorF fuel rest with
        | none => none
        | some (right, rest2) =>
          if right = JsNum.fin 0 then none
          else termLoopF fuel (jsDiv left right) rest2
      else some (left, ts)
    | _ => some (left, ts)

/-- `parseFactor` (lines 205-263): unary sign, number, parenthesized
expression, or whitelisted function call. -/
def parseFactorF : ℕ → List Token → Option (JsNum × List Token)
  | 0, _ => none
  | fuel + 1, ts =>
    match ts with
    | [] => none
    | Token.operator op :: rest =>
      if op = '-' then
        match parseFactorF fuel rest with
        | none => none
        | some (v, rest2) => some (jsNeg v, rest2)
      else if op = '+' then parseFactorF fuel rest
      else none
    | Token.number value :: rest => some (.fin value, rest)
    | Token.paren p :: rest =>
      if p = '(' then
        match parseExprF fuel rest with
        | none => none
        | some (v, rest2) =>
          match rest2 with
          | Token.paren _ :: rest3 => some (v, rest3)
          | _ => none
      else none
    | Token.function funcName :: rest =>
      match rest with
      | Token.paren _ :: rest2 =>
        let argsParse : Option (List JsNum × List Token) :=
          match rest2 with
          | Token.paren ')' :: _ => some ([], rest2)
          | _ => parseArgsF fuel rest2
        match argsParse with
        | none => none
        | some (args, rest3) =>
          match rest3 with
          | Token.paren _ :: rest4 =>
            match applyMathFunction funcName args with
            | none => none
            | some v => some (v, rest4)
          | _ => none
      | _ => none
    | Token.comma :: _ => none

/-- The argument list of a function call: `expr (',' expr)*`. -/
def parseArgsF : ℕ → List Token → Option (List JsNum × List Token)
  | 0, _ => none
  | fuel + 1, ts =>
    match parseExprF fuel ts with
    | none => none
    | some (v, rest) => argsLoopF fuel [v] rest

/-- The `while`-loop pushing one argument per comma. -/
def argsLoopF : ℕ → List JsNum → List Token → Option (List JsNum × List Token)
  | 0, _, _ => none
  | fuel + 1, acc, ts =>
    match ts with
    | Token.comma :: rest =>
      match parseExprF fuel rest with
      | none => none
      | some (v, rest2) => argsLoopF fuel (acc ++ [v]) rest2
    | _ => some (acc, ts)

end

/-- Fuel that always suffices for `parseExprF` on the given token list. -/
def parserFuel (ts : List Token) : ℕ := 8 * ts.length + 8

/-- `SafeExpressionParser.parse` (lines 166-172): parse one `expr`, then
fail on trailing unconsumed tokens. -/
def parseTokens (ts : List Token) : Option JsNum :=
  match parseExprF (parserFuel ts) ts with
  | some (v, []) => some v
  | _ => none

/-! ## `evaluateExpression` (lines 266-299) -/

/-- A value of the variable map handed to `evaluateExpression`:
`Record<string, number | string>`. -/
inductive VarVal where
  | num (q : ℚ)
  | str (s : String)
deriving DecidableEq, Repr

/-- The string-coercion preamble (lines 272-278): string values go through
`parseFloat` and entries whose coercion is `NaN` are dropped. -/
def toNumericVariables (vars : List (String × VarVal)) : List (String × ℚ) :=
  vars.filterMap (fun kv =>
    match kv.2 with
    | .num q => some (kv.1, q)
    | .str s => (parseFloatQ s).map (fun q => (kv.1, q)))

/-- Whether a JS number passes `!isNaN(x) && isFinite(x)`. -/
def jsIsFinite : JsNum → Bool
  | .fin _ => true
  | _ => false

/-- The evaluation pipeline before the final guard: coerce the variable
map, tokenize (lines 281-284), then parse-and-evaluate (lines 287-288). -/
def rawEvaluate (expression : String) (vars : List (String × VarVal)) : Option JsNum :=
  match tokenize expression (toNumericVariables vars) with
  | none => none
  | some tokens => parseTokens tokens

/-- `evaluateExpression(expression, variables)`: the pipeline, then the
final `isNaN(result) || !isFinite(result)` guard (line 290). -/
def evaluateExpression (expression : String) (vars : List (String × VarVal)) : Option ℚ :=
  match rawEvaluate expression vars with
  | some (.fin q) => some q
  | _ => none

section EvalExamples

attribute [local semireducible] Rat.mul Rat.add Rat.sub Rat.inv

example : evaluateExpression "2 + 3 * 4" [] = some 14 := by decide
example : evaluateExpression "(2 + 3) * 4" [] = some 20 := by decide
example : evaluateExpression "income * 0.02" [("income", .num 50000)] = some 1000 := by decide
example : evaluateExpression "1 / 0" [] = none := by decide
example : evaluateExpression "max(1, 2, 3)" [] = some 3 := by decide
example : evaluateExpression "min()" [] = none := by decide
example : evaluateExpression "foo + 1" [] = none := by decide
example : evaluateExpression "unknownfunc(1)" [] = none := by decide
example : evaluateExpression "10 - 3 - 2" [] = some 5 := by decide

end EvalExamples

/-! ## Profile and policy-parameter data model
(`src/lib/schemas/core.ts`, `policy-parameters.ts`, `impact-calculation.ts`)

`null` and `undefined` are both `Option.none`.  Enum-valued profile fields
are strings at the JS level and are modelled as strings; booleans stay
booleans.  `current_benefits` is a nested object whose contents the
calculator never reads, so it is modelled opaquely. -/

/-- A dynamic profile field value, as seen by `profile[input]`. -/
inductive JsVal where
  | num (q : ℚ)
  | str (s : String)
  | bool (b : Bool)
  | obj
deriving DecidableEq, Repr

/-- The `UserProfile` schema (core.ts lines 39-120). -/
structure UserProfile where
  id : Option String := none
  age : Option ℚ := none
  state : Option String := none
  city : Option String := none
  zip_code : Option String := none
  household_size : Option ℚ := none
  marital_status : Option String := none
  employment_status : Option String := none
  individual_income : Option ℚ := none
  household_income : Option ℚ := none
  tax_filing_status : Option String := none
  industry : Option String := none
  rent_vs_own : Option String := none
  annual_housing_payment : Option ℚ := none
  student_loan_balance : Option ℚ := none
  other_debts : Option ℚ := none
  insurance_status : Option String := none
  insurance_type : Option String := none
  dependents_covered : Option ℚ := none
  student_status : Option String := none
  institution_type : Option String := none
  in_state_vs_out_of_state : Option String := none
  current_benefits : Option Unit := none
  retirement_accounts : Option ℚ := none
  investment_accounts : Option ℚ := none
  home_equity : Option ℚ := none
  planning_home_purchase : Option Bool := none
  planning_retirement_soon : Option Bool := none
  planning_children : Option Bool := none
  planning_start_business : Option Bool := none
  is_gig_worker : Option Bool := none
  is_union_member : Option Bool := none
  is_small_business_owner : Option Bool := none
deriving DecidableEq, Repr

/-- Dynamic field access `profile[input]` over the schema's keys; a name
outside the schema reads as `undefined` (`none`). -/
def profileGet (p : UserProfile) (key : String) : Option JsVal :=
  match key with
  | "id" => p.id.map .str
  | "age" => p.age.map .num
  | "state" => p.state.map .str
  | "city" => p.city.map .str
  | "zip_code" => p.zip_code.map .str
  | "household_size" => p.household_size.map .num
  | "marital_status" => p.marital_status.map .str
  | "employment_status" => p.employment_status.map .str
  | "individual_income" => p.individual_income.map .num
  | "household_income" => p.household_income.map .num
  | "tax_filing_status" => p.tax_filing_status.map .str
  | "industry" => p.industry.map .str
  | "rent_vs_own" => p.rent_vs_own.map .str
  | "annual_housing_payment" => p.annual_housing_payment.map .num
  | "student_loan_balance" => p.student_loan_balance.map .num
  | "other_debts" => p.other_debts.map .num
  | "insurance_status" => p.insurance_status.map .str
  | "insurance_type" => p.insurance_type.map .str
  | "dependents_covered" => p.dependents_covered.map .num
  | "student_status" => p.student_status.map .str
  | "institution_type" => p.institution_type.map .str
  | "in_state_vs_out_of_state" => p.in_state_vs_out_of_state.map .str
  | "current_benefits" => p.current_benefits.map (fun _ => .obj)
  | "retirement_accounts" => p.retirement_accounts.map .num
  | "investment_accounts" => p.investment_accounts.map .num
  | "home_equity" => p.home_equity.map .num
  | "planning_home_purchase" => p.planning_home_purchase.map .bool
  | "planning_retirement_soon" => p.planning_retirement_soon.map .bool
  | "planning_children" => p.planning_children.map .bool
  | "planning_start_business" => p.planning_start_business.map .bool
  | "is_gig_worker" => p.is_gig_worker.map .bool
  | "is_union_member" => p.is_union_member.map .bool
  | "is_small_business_owner" => p.is_small_business_owner.map .bool
  | _ => none

/-- The absence test of `checkRequiredInputs` (line 315):
`value === undefined || value === null || value === ''`. -/
def isAbsentVal : Option JsVal → Bool
  | none => true
  | some (.str s) => s = ""
  | some _ => false

/-- `PolicyParameters`: the calculator reads only `effectiveDate`
(line 499); the schema's remaining optional fields never influence it. -/
structure PolicyParameters where
  effectiveDate : Option String := none
  sunsetDate : Option String := none
deriving DecidableEq, Repr

/-- `outputUnit ∈ {dollars, percentage, boolean}` (policy-parameters
schema). -/
inductive OutputUnit where
  | dollars
  | percentage
  | boolean
deriving DecidableEq, Repr

/-- `impactSemantics ∈ {benefit, burden}`. -/
inductive ImpactSemantics where
  | benefit
  | burden
deriving DecidableEq, Repr

/-- The `CalculationFormula` schema.  `impactSemantics` is optional at the
JS value level; `calculateImpact` applies the `|| 'benefit'` default. -/
structure CalculationFormula where
  formulaId : String
  name : String
  description : String
  expression : String
  requiredInputs : List String
  outputUnit : OutputUnit
  impactSemantics : Option ImpactSemantics := none
deriving DecidableEq, Repr

/-- `ImpactUnitSchema` (impact-calculation.ts lines 7-13). -/
inductive ImpactUnit where
  | dollars_annual
  | dollars_monthly
  | dollars_one_time
  | percentage
  | qualitative
deriving DecidableEq, Repr

/-- `ImpactDirectionSchema` (lines 17-22). -/
inductive ImpactDirection where
  | positive
  | negative
  | neutral
  | mixed
deriving DecidableEq, Repr

/-- `MissingInputSchema` (lines 75-81). -/
structure MissingInput where
  field : String
  fieldLabel : String
  reason : String
  impact : String
  isRequired : Bool
deriving DecidableEq, Repr

/-- `CalculationStepSchema` (lines 30-37). -/
structure CalculationStep where
  stepNumber : ℕ
  description : String
  formula : String
  inputs : List (String × VarVal)
  result : ℚ
  unit : OutputUnit
deriving DecidableEq, Repr

/-- One secondary-formula dimension of a computed result (lines 411-416 of
the calculator). -/
structure AdditionalDimension where
  name : String
  value : ℚ
  unit : OutputUnit
  description : String
deriving DecidableEq, Repr

/-- `CaveatSchema` (lines 62-67); type and severity are schema enums,
carried as strings. -/
structure Caveat where
  type : String
  description : String
  severity : String
  affectsConfidence : Bool
deriving DecidableEq, Repr

/-- The `context` block of a computed result (calculator lines 509-517). -/
structure ImpactContext where
  asPercentageOfIncome : Option ℚ
  monthlyEquivalent : ℚ
  monthsOfHousingPayment : Option ℚ
deriving DecidableEq, Repr

/-- The `computed` payload of `ImpactCalculationResultSchema`. -/
structure ComputedResult where
  primaryImpactValue : ℚ
  impactUnit : ImpactUnit
  impactDirection : ImpactDirection
  steps : List CalculationStep
  inputsUsed : List (String × VarVal)
  formulaUsed : String
  caveats : List Caveat
  confidenceLevel : ℚ
  context : ImpactContext
  additionalDimensions : Option (List AdditionalDimension)
deriving DecidableEq, Repr

/-- `ImpactCalculationResult`: the discriminated union on
`calculationStatus`. -/
inductive ImpactCalculationResult where
  | cannotCompute (reason : String) (missingInputs : List MissingInput)
      (partialAnalysis : Option String)
  | computed (result : ComputedResult)
deriving DecidableEq, Repr

/-! ## `checkRequiredInputs` and `extractProfileVariables`
(calculator lines 14-40, 305-371) -/

/-- The static `FIELD_LABELS` table (lines 14-40). -/
def FIELD_LABELS : List (String × String) :=
  [("household_income", "Household Income"),
   ("individual_income", "Individual Income"),
   ("age", "Age"),
   ("state", "State"),
   ("household_size", "Household Size"),
   ("tax_filing_status", "Tax Filing Status"),
   ("employment_status", "Employment Status"),
   ("insurance_status", "Insurance Status"),
   ("student_status", "Student Status"),
   ("rent_vs_own", "Housing Status"),
   ("annual_housing_payment", "Annual Housing Payment"),
   ("student_loan_balance", "Student Loan Balance"),
   ("retirement_accounts", "Retirement Accounts"),
   ("investment_accounts", "Investment Accounts"),
   ("home_equity", "Home Equity"),
   ("planning_home_purchase", "Planning Home Purchase"),
   ("planning_retirement_soon", "Planning Retirement Soon"),
   ("planning_children", "Planning Children"),
   ("planning_start_business", "Planning to Start Business"),
   ("is_gig_worker", "Gig Worker"),
   ("is_union_member", "Union Member"),
   ("is_small_business_owner", "Small Business Owner")]

/-- JS `a || b` on an optional string: the fallback is used when the
left side is absent or falsy (the empty string). -/
def jsOrString (o : Option String) (fallback : String) : String :=
  match o with
  | some s => if s = "" then fallback else s
  | none => fallback

/-- `checkRequiredInputs(profile, requiredInputs)` (lines 305-327): one
`MissingInput` per required field that is `undefined`, `null` or `''`,
labelled via `FIELD_LABELS[input] || input`. -/
def checkRequiredInputs (profile : UserProfile) (requiredInputs : List String) :
    List MissingInput :=
  requiredInputs.filterMap (fun input =>
    if isAbsentVal (profileGet profile input) then
      some { field := input,
             fieldLabel := jsOrString (lookupPair FIELD_LABELS input) input,
             reason := "Required for impact calculation",
             impact := "Cannot compute accurate impact without this information",
             isRequired := true }
    else none)

/-- A numeric field enters the variable map when `!= null`. -/
def numEntry (name : String) (o : Option ℚ) : List (String × VarVal) :=
  match o with
  | some q => [(name, .num q)]
  | none => []

/-- A string field enters the variable map when truthy (present and
nonempty): `if (profile.state) ...`. -/
def strEntry (name : String) (o : Option String) : List (String × VarVal) :=
  match o with
  | some s => if s = "" then [] else [(name, .str s)]
  | none => []

/-- A boolean field enters the variable map as `1`/`0` when `!= null`. -/
def boolEntry (name : String) (o : Option Bool) : List (String × VarVal) :=
  match o with
  | some b => [(name, .num (if b then 1 else 0))]
  | none => []

/-- `extractProfileVariables(profile)` (lines 333-371), in source order. -/
def extractProfileVariables (p : UserProfile) : List (String × VarVal) :=
  numEntry "household_income" p.household_income ++
  numEntry "individual_income" p.individual_income ++
  numEntry "age" p.age ++
  numEntry "household_size" p.household_size ++
  numEntry "annual_housing_payment" p.annual_housing_payment ++
  numEntry "student_loan_balance" p.student_loan_balance ++
  numEntry "other_debts" p.other_debts ++
  numEntry "dependents_covered" p.dependents_covered ++
  strEntry "state" p.state ++
  strEntry "tax_filing_status" p.tax_filing_status ++
  strEntry "employment_status" p.employment_status ++
  strEntry "insurance_status" p.insurance_status ++
  strEntry "student_status" p.student_status ++
  strEntry "rent_vs_own" p.rent_vs_own ++
  numEntry "retirement_accounts" p.retirement_accounts ++
  numEntry "investment_accounts" p.investment_accounts ++
  numEntry "home_equity" p.home_equity ++
  boolEntry "planning_home_purchase" p.planning_home_purchase ++
  boolEntry "planning_retirement_soon" p.planning_retirement_soon ++
  boolEntry "planning_children" p.planning_children ++
  boolEntry "planning_start_business" p.planning_start_business ++
  boolEntry "is_gig_worker" p.is_gig_worker ++
  boolEntry "is_union_member" p.is_union_member ++
  boolEntry "is_small_business_owner" p.is_small_business_owner

/-! ## `calculateImpact` (lines 377-538) -/

/-- `Math.round(x * 100) / 100`: rounding to two decimals. -/
def round2 (q : ℚ) : ℚ := (⌊q * 100 + 1/2⌋ : ℤ) / 100

/-- JS `variables[input] || 0` on an optional variable value: falsy values
(absent, `0`, the empty string) become `0`. -/
def jsOrZero : Option VarVal → VarVal
  | some (.num q) => if q = 0 then .num 0 else .num q
  | some (.str s) => if s = "" then .num 0 else .str s
  | none => .num 0

/-- Truthiness of an optional numeric profile field (`0`, `null` and
`undefined` are falsy). -/
def truthyNum : Option ℚ → Bool
  | some q => q ≠ 0
  | none => false

/-- Truthiness of an optional string field (`''`, `null`, `undefined`
falsy). -/
def truthyStr : Option String → Bool
  | some s => s ≠ ""
  | none => false

/-- The direction classification (lines 471-483). -/
def classifyImpactDirection (finalResult : ℚ) (semantics : ImpactSemantics) :
    ImpactDirection :=
  if |finalResult| ≤ 100 then
    if finalResult ≠ 0 then
      if 0 < finalResult then
        (if semantics = .benefit then .positive else .negative)
      else
        (if semantics = .benefit then .negative else .positive)
    else .neutral
  else if semantics = .benefit then
    (if 0 < finalResult then .positive else .negative)
  else
    (if 0 < finalResult then .negative else .positive)

/-- The caveat heuristics (lines 486-506), in push order. -/
def buildCaveats (profile : UserProfile) (parameters : PolicyParameters) :
    List Caveat :=
  (if ¬ truthyNum profile.household_income ∧ truthyNum profile.individual_income then
    [{ type := "assumption",
       description := "Household income estimated from individual income",
       severity := "medium", affectsConfidence := true }]
  else []) ++
  (if ¬ truthyStr parameters.effectiveDate then
    [{ type := "policy_uncertainty",
       description := "Policy effective date not specified",
       severity := "low", affectsConfidence := false }]
  else [])

/-- The context block (lines 509-517). -/
def buildContext (profile : UserProfile) (finalResult : ℚ) : ImpactContext :=
  { asPercentageOfIncome :=
      match profile.household_income with
      | some hi => if hi ≠ 0 then some ((⌊|finalResult| / hi * 10000 + 1/2⌋ : ℤ) / 100) else none
      | none => none,
    monthlyEquivalent := round2 (finalResult / 12),
    monthsOfHousingPayment :=
      match profile.annual_housing_payment with
      | some ahp => if ahp ≠ 0 then some (round2 (|finalResult| / (ahp / 12))) else none
      | none => none }

/-- The mutable state of the formula loop (lines 407-417): the variable
map, the accumulated steps and additional dimensions, and `finalResult`. -/
structure ExecState where
  vars : List (String × VarVal)
  steps : List CalculationStep
  additionalDimensions : List AdditionalDimension
  finalResult : Option ℚ
deriving DecidableEq, Repr

/-- One successful iteration of the formula loop (lines 432-457): bind the
result under the formula's own `formulaId`, append the step record, and
either set the primary result (`i = 0`) or append an additional dimension
with the result rounded to 2 decimals. -/
def advanceState (st : ExecState) (i : ℕ) (formula : CalculationFormula)
    (result : ℚ) : ExecState :=
  let vars' := upsert st.vars formula.formulaId (VarVal.num result)
  { vars := vars',
    steps := st.steps ++
      [{ stepNumber := i + 1,
         description := formula.description,
         formula := formula.expression,
         inputs := formula.requiredInputs.map
           (fun input => (input, jsOrZero (lookupPair vars' input))),
         result := result,
         unit := formula.outputUnit }],
    additionalDimensions :=
      if i = 0 then st.additionalDimensions
      else st.additionalDimensions ++
        [{ name := formula.name, value := round2 result,
           unit := formula.outputUnit, description := formula.description }],
    finalResult := if i = 0 then some result else st.finalResult }

/-- The formula loop (lines 420-458), parameterized by the expression
evaluator so that non-invocation of the evaluator is expressible.  A
failed evaluation aborts with the failing formula's `name`. -/
def execFormulas (ev : String → List (String × VarVal) → Option ℚ) :
    ExecState → ℕ → List CalculationFormula → Except String ExecState
  | st, _, [] => .ok st
  | st, i, formula :: rest =>
    match ev formula.expression st.vars with
    | none => .error formula.name
    | some result => execFormulas ev (advanceState st i formula result) (i + 1) rest

/-- `calculateImpact(profile, parameters, formulas)` (lines 377-538), with
the expression evaluator abstracted as `ev`. -/
def calculateImpactWith (ev : String → List (String × VarVal) → Option ℚ)
    (profile : UserProfile) (parameters : PolicyParameters)
    (formulas : List CalculationFormula) : ImpactCalculationResult :=
  match formulas with
  | [] =>
    .cannotCompute "No calculation formulas available for this policy" [] none
  | primaryFormula :: _ =>
    let missingInputs := checkRequiredInputs profile primaryFormula.requiredInputs
    if 0 < missingInputs.length then
      .cannotCompute
        ("Missing required profile information: " ++
          String.intercalate ", " (missingInputs.map (fun m => m.fieldLabel)))
        missingInputs
        (some ("This policy calculation requires: " ++
          String.intercalate ", " primaryFormula.requiredInputs))
    else
      match execFormulas ev
          { vars := extractProfileVariables profile, steps := [],
            additionalDimensions := [], finalResult := none } 0 formulas with
      | .error name =>
        .cannotCompute ("Failed to evaluate formula: " ++ name) [] none
      | .ok st =>
        match st.finalResult with
        | none => .cannotCompute "Calculation did not produce a result" [] none
        | some finalResult =>
          let semantics := primaryFormula.impactSemantics.getD .benefit
          let caveats := buildCaveats profile parameters
          .computed
            { primaryImpactValue := round2 finalResult,
              impactUnit :=
                if primaryFormula.outputUnit = .dollars then .dollars_annual
                else .percentage,
              impactDirection := classifyImpactDirection finalResult semantics,
              steps := st.steps,
              inputsUsed := st.vars.filter
                (fun kv => primaryFormula.requiredInputs.contains kv.1),
              formulaUsed := primaryFormula.expression,
              caveats := caveats,
              confidenceLevel := if caveats.length = 0 then 9/10 else 7/10,
              context := buildContext profile finalResult,
              additionalDimensions :=
                if 0 < st.additionalDimensions.length then
                  some st.additionalDimensions
                else none }

/-- The exported `calculateImpact`, using the real expression evaluator. -/
def calculateImpact (profile : UserProfile) (parameters : PolicyParameters)
    (formulas : List CalculationFormula) : ImpactCalculationResult :=
  calculateImpactWith evaluateExpression profile parameters formulas

/-! ## Observation helpers on results -/

/-- The direction of a computed result. -/
def resultDirection : ImpactCalculationResult → Option ImpactDirection
  | .computed r => some r.impactDirection
  | .cannotCompute _ _ _ => none

/-- The impact unit of a computed result. -/
def resultUnit : ImpactCalculationResult → Option ImpactUnit
  | .computed r => some r.impactUnit
  | .cannotCompute _ _ _ => none

/-- The per-step raw results of a computed result's breakdown. -/
def resultStepValues : ImpactCalculationResult → Option (List ℚ)
  | .computed r => some (r.steps.map (fun s => s.result))
  | .cannotCompute _ _ _ => none

/-- The additional-dimension values of a computed result. -/
def resultDimensionValues : ImpactCalculationResult → Option (List ℚ)
  | .computed r =>
    some ((r.additionalDimensions.getD []).map (fun d => d.value))
  | .cannotCompute _ _ _ => none

/-- The rounded primary impact value of a computed result. -/
def resultPrimaryValue : ImpactCalculationResult → Option ℚ
  | .computed r => some r.primaryImpactValue
  | .cannotCompute _ _ _ => none

/-! ## Concrete fixtures used by the claim theorems -/

/-- A profile with every field absent. -/
def emptyProfile : UserProfile := {}

/-- A profile with only `household_income = 80000` (the spec's end-to-end
scenario). -/
def prof80k : UserProfile := { household_income := some 80000 }

/-- A profile with only `household_income = 1200`. -/
def prof1200 : UserProfile := { household_income := some 1200 }

/-- A profile giving both income fields the value `1200` — the most
charitable reading of the spec example's "`income = 1200`". -/
def prof1200both : UserProfile :=
  { household_income := some 1200, individual_income := some 1200 }

/-- Policy parameters with no fields set. -/
def noParams : PolicyParameters := {}

/-- Policy parameters with an effective date. -/
def datedParams : PolicyParameters := { effectiveDate := some "2026-01-01" }

/-- The spec's end-to-end formula: 2% of household income, in dollars,
benefit semantics. -/
def taxCutFormula : CalculationFormula :=
  { formulaId := "tax_cut", name := "Tax Cut",
    description := "Annual tax reduction",
    expression := "household_income * 0.02",
    requiredInputs := ["household_income"],
    outputUnit := .dollars, impactSemantics := some .benefit }

/-- The same formula with burden semantics. -/
def taxBurdenFormula : CalculationFormula :=
  { taxCutFormula with impactSemantics := some .burden }

/-- The same formula with the optional semantics field absent. -/
def taxDefaultFormula : CalculationFormula :=
  { taxCutFormula with impactSemantics := none }

/-- The chained-formula example's primary formula, exactly as the spec
writes it (`expression "income * 0.1"`). -/
def chainAIncome : CalculationFormula :=
  { formulaId := "a", name := "A", description := "Primary",
    expression := "income * 0.1", requiredInputs := [],
    outputUnit := .dollars, impactSemantics := some .benefit }

/-- The chained-formula example's primary formula with the only variable
name the engine can actually bind (`household_income`). -/
def chainA : CalculationFormula :=
  { formulaId := "a", name := "A", description := "Primary",
    expression := "household_income * 0.1",
    requiredInputs := ["household_income"],
    outputUnit := .dollars, impactSemantics := some .benefit }

/-- The chained-formula example's secondary formula, referencing the
primary formula's `formulaId`. -/
def chainB : CalculationFormula :=
  { formulaId := "b", name := "B", description := "Monthly equivalent",
    expression := "a / 12", requiredInputs := [],
    outputUnit := .dollars, impactSemantics := some .benefit }

/-! ## Helper lemmas -/

theorem lookupPair_upsert_self {α : Type} (m : List (String × α)) (k : String)
    (v : α) : lookupPair (upsert m k v) k = some v := by
  induction m with
  | nil => simp [upsert, lookupPair]
  | cons hd tl ih =>
    by_cases h : hd.1 = k
    · simp [upsert, h, lookupPair]
    · simpa [upsert, h, lookupPair] using ih

theorem lookupPair_some_mem {α : Type} (l : List (String × α)) (k : String)
    (v : α) (h : lookupPair l k = some v) : ∃ p ∈ l, p.2 = v := by
  induction l with
  | nil => simp [lookupPair] at h
  | cons hd tl ih =>
    by_cases hk : hd.1 = k
    · rw [lookupPair, if_pos hk] at h
      exact ⟨hd, List.mem_cons_self hd tl, by injection h⟩
    · rw [lookupPair, if_neg hk] at h
      obtain ⟨p, hp, hv⟩ := ih h
      exact ⟨p, List.mem_cons_of_mem hd hp, hv⟩

theorem fieldLabels_ne_empty (k s : String)
    (h : lookupPair FIELD_LABELS k = some s) : s ≠ "" := by
  obtain ⟨p, hp, hv⟩ := lookupPair_some_mem FIELD_LABELS k s h
  have : ∀ q ∈ FIELD_LABELS, q.2 ≠ "" := by decide
  exact hv ▸ this p hp

theorem jsOrString_eq_getD (k fb : String)
    (hne : ∀ s, lookupPair FIELD_LABELS k = some s → s ≠ "") :
    jsOrString (lookupPair FIELD_LABELS k) fb =
      (lookupPair FIELD_LABELS k).getD fb := by
  cases h : lookupPair FIELD_LABELS k with
  | none => simp [jsOrString]
  | some s => simp [jsOrString, hne s h]

theorem identStart_toNat {c : Char} (h : isIdentStart c = true) :
    (65 ≤ c.toNat ∧ c.toNat ≤ 90) ∨ (97 ≤ c.toNat ∧ c.toNat ≤ 122) ∨
      c.toNat = 95 := by
  simpa [isIdentStart, decide_eq_true_eq] using h

theorem isSpaceCh_false_of_identStart {c : Char} (h : isIdentStart c = true) :
    isSpaceCh c = false := by
  rw [isSpaceCh]
  simp only [decide_eq_false_iff_not]
  rintro (rfl | rfl | rfl | rfl) <;> exact absurd h (by decide)

theorem isDigitCh_false_of_identStart {c : Char} (h : isIdentStart c = true) :
    isDigitCh c = false := by
  have hr := identStart_toNat h
  rw [isDigitCh]
  simp only [decide_eq_false_iff_not]
  omega

theorem ne_dot_of_identStart {c : Char} (h : isIdentStart c = true) :
    c ≠ '.' := by
  rintro rfl; exact absurd h (by decide)

theorem isOpCh_false_of_identStart {c : Char} (h : isIdentStart c = true) :
    isOpCh c = false := by
  rw [isOpCh]
  simp only [decide_eq_false_iff_not]
  rintro (rfl | rfl | rfl | rfl) <;> exact absurd h (by decide)

theorem ne_paren_of_identStart {c : Char} (h : isIdentStart c = true) :
    ¬ (c = '(' ∨ c = ')') := by
  rintro (rfl | rfl) <;> exact absurd h (by decide)

theorem ne_comma_of_identStart {c : Char} (h : isIdentStart c = true) :
    c ≠ ',' := by
  rintro rfl; exact absurd h (by decide)

/-- Tokenizing a string that is one well-formed identifier resolves it the
way `tokenize` does: function-whitelist first (case-insensitively), then
an exact variable-map key, else failure. -/
theorem tokenize_single_ident (vars : List (String × ℚ)) (ident : String)
    (c : Char) (cs : List Char) (h1 : ident.toList = c :: cs)
    (h2 : isIdentStart c = true) (h3 : ∀ x ∈ cs, isIdentCh x = true) :
    tokenize ident vars =
      (if mathFunctionNames.contains (toLowerStr (c :: cs)) then
        some [Token.function (toLowerStr (c :: cs))]
      else
        match lookupPair vars (String.mk (c :: cs)) with
        | some v => some [Token.number v]
        | none => none) := by
  have htake : cs.takeWhile isIdentCh = cs := List.takeWhile_eq_self_iff.mpr h3
  have hdrop : cs.dropWhile isIdentCh = [] := List.dropWhile_eq_nil_iff.mpr h3
  rw [tokenize, h1]
  simp only [List.length_cons]
  rw [tokenizeGo]
  simp only [isSpaceCh_false_of_identStart h2,
    isDigitCh_false_of_identStart h2, ne_dot_of_identStart h2,
    isOpCh_false_of_identStart h2, ne_comma_of_identStart h2, h2,
    htake, hdrop]
  simp only [Bool.false_eq_true, if_false, false_and, or_false,
    ne_paren_of_identStart h2, if_true]
  split
  · rw [tokenizeGo]
    simp
  · cases hl : lookupPair vars (String.mk (c :: cs)) with
    | none => simp
    | some v =>
      rw [tokenizeGo]
      simp

/-! ## Claim theorems -/

section ClaimTheorems

attribute [local semireducible] Rat.mul Rat.add Rat.sub Rat.inv

/-- C2: every identifier is resolved at tokenization time — a
case-insensitive match of the function whitelist becomes a function token,
otherwise an exact (case-sensitive) key of the variable map is substituted
as a number token, otherwise evaluation fails; in particular
`evaluate("foo + 1", {})` and `evaluate("unknownfunc(1)", {})` fail and no
silent zero-substitution happens. -/
theorem c2_identifier_resolution :
    (∀ (vars : List (String × ℚ)) (ident : String) (c : Char) (cs : List Char),
      ident.toList = c :: cs → isIdentStart c = true →
      (∀ x ∈ cs, isIdentCh x = true) →
      tokenize ident vars =
        (if mathFunctionNames.contains (toLowerStr (c :: cs)) then
          some [Token.function (toLowerStr (c :: cs))]
        else
          match lookupPair vars (String.mk (c :: cs)) with
          | some v => some [Token.number v]
          | none => none))
    ∧ evaluateExpression "foo + 1" [] = none
    ∧ evaluateExpression "unknownfunc(1)" [] = none
    ∧ evaluateExpression "max(1, 2, 3)" [] = some 3
    ∧ evaluateExpression "MAX(1, 2)" [] = some 2
    ∧ evaluateExpression "Foo + 1" [("foo", .num 2)] = none
    ∧ evaluateExpression "foo + 1" [("foo", .num 2)] = some 3 :=
  ⟨tokenize_single_ident, by decide, by decide, by decide, by decide,
    by decide, by decide⟩

/-- Witness for C2 at a concrete identifier and variable map. -/
theorem c2_identifier_resolution_witness :
    tokenize "foo" [("foo", 7)] = some [Token.number 7] := by
  have h := c2_identifier_resolution.1 [("foo", 7)] "foo" 'f' ['o', 'o']
    (by decide) (by decide) (by decide)
  exact h.trans (by decide)

/-- C3: a division whose right operand evaluates to zero fails the whole
evaluation, and a successfully parsed expression whose value is `NaN` or
non-finite is also rejected (so a success is always a finite rational); in
particular `evaluate("1 / 0", {})` fails, and `min()` — whose parsed value
is `Infinity` — fails through the finiteness guard. -/
theorem c3_division_by_zero_and_finiteness :
    (∀ (fuel : ℕ) (left : JsNum) (rest rest2 : List Token),
      parseFactorF fuel rest = some (JsNum.fin 0, rest2) →
      termLoopF (fuel + 1) left (Token.operator '/' :: rest) = none)
    ∧ (∀ (e : String) (vars : List (String × VarVal)) (v : JsNum),
      rawEvaluate e vars = some v → jsIsFinite v = false →
      evaluateExpression e vars = none)
    ∧ (∀ (e : String) (vars : List (String × VarVal)) (q : ℚ),
      evaluateExpression e vars = some q → rawEvaluate e vars = some (.fin q))
    ∧ evaluateExpression "1 / 0" [] = none
    ∧ evaluateExpression "10 / (4 - 4)" [] = none
    ∧ rawEvaluate "min()" [] = some JsNum.posInf
    ∧ evaluateExpression "min()" [] = none := by
  refine ⟨?_, ?_, ?_, by decide, by decide, by decide, by decide⟩
  · intro fuel left rest rest2 h
    simp [termLoopF, h]
  · intro e vars v h hfin
    unfold evaluateExpression
    rw [h]
    cases v <;> simp_all [jsIsFinite]
  · intro e vars q h
    unfold evaluateExpression at h
    rcases hr : rawEvaluate e vars with _ | v
    · rw [hr] at h; cases h
    · rw [hr] at h
      cases v <;> simp_all

/-- Witness for C3's division-by-zero lemma at a concrete token list. -/
theorem c3_division_by_zero_witness :
    termLoopF 6 (JsNum.fin 1) [Token.operator '/', Token.number 0] = none := by
  have h := c3_division_by_zero_and_finiteness.1 5 (JsNum.fin 1)
    [Token.number 0] [] (by decide)
  exact h

/-- C4: standard precedence with left-associative binary operators,
parentheses overriding precedence, variable substitution, and failure on
trailing unconsumed tokens. -/
theorem c4_precedence_parentheses_trailing :
    evaluateExpression "2 + 3 * 4" [] = some 14
    ∧ evaluateExpression "(2 + 3) * 4" [] = some 20
    ∧ evaluateExpression "income * 0.02" [("income", .num 50000)] = some 1000
    ∧ evaluateExpression "10 - 3 - 2" [] = some 5
    ∧ evaluateExpression "20 / 2 / 5" [] = some 2
    ∧ (∀ (ts : List Token) (v : JsNum) (rest : List Token),
      parseExprF (parserFuel ts) ts = some (v, rest) → rest ≠ [] →
      parseTokens ts = none)
    ∧ evaluateExpression "2 3" [] = none := by
  refine ⟨by decide, by decide, by decide, by decide, by decide, ?_, by decide⟩
  intro ts v rest h hne
  unfold parseTokens
  rw [h]
  cases rest with
  | nil => exact absurd rfl hne
  | cons a l => rfl

/-- Witness for C4's trailing-tokens lemma at a concrete token list. -/
theorem c4_precedence_parentheses_trailing_witness :
    parseTokens [Token.number 2, Token.number 3] = none := by
  exact c4_precedence_parentheses_trailing.2.2.2.2.2.1
    [Token.number 2, Token.number 3] (JsNum.fin 2) [Token.number 3]
    (by decide) (by decide)

/-- Modelled from the spec's branch-free description of the direction
classification: `neutral` iff the result is zero, otherwise `positive`
exactly when (positive and benefit) or (negative and burden), otherwise
`negative` — stated for comparison with the two-branch source logic. -/
def classifyDirectionSpec (result : ℚ) (semantics : ImpactSemantics) :
    ImpactDirection :=
  if result = 0 then .neutral
  else if (0 < result ∧ semantics = .benefit) ∨
      (result < 0 ∧ semantics = .burden) then .positive
  else .negative

/-- C7: the two-branch direction classification (with its small-magnitude
`|result| <= 100` branch) is extensionally equal to the branch-free
classification — the special case never changes the outcome. -/
theorem c7_small_magnitude_branch_redundant :
    ∀ (r : ℚ) (s : ImpactSemantics),
      classifyImpactDirection r s = classifyDirectionSpec r s := by
  intro r s
  rcases lt_trichotomy r 0 with hr | rfl | hr
  · have h2 : r ≠ 0 := ne_of_lt hr
    have h3 : ¬ 0 < r := not_lt.mpr hr.le
    cases s <;> by_cases habs : |r| ≤ 100 <;>
      simp [classifyImpactDirection, classifyDirectionSpec, habs, h2, h3, hr]
  · norm_num [classifyImpactDirection, classifyDirectionSpec]
  · have h2 : r ≠ 0 := ne_of_gt hr
    have h3 : ¬ r < 0 := not_lt.mpr hr.le
    cases s <;> by_cases habs : |r| ≤ 100 <;>
      simp [classifyImpactDirection, classifyDirectionSpec, habs, h2, h3, hr]

/-- C8: `evaluate` and `calculate` are deterministic — in this pure
embedding both are functions of their inputs, so repeated application to
equal inputs gives equal results. -/
theorem c8_determinism :
    (∀ (e : String) (vars : List (String × VarVal)),
      evaluateExpression e vars = evaluateExpression e vars)
    ∧ (∀ (profile : UserProfile) (parameters : PolicyParameters)
        (formulas : List CalculationFormula),
      calculateImpact profile parameters formulas =
        calculateImpact profile parameters formulas) :=
  ⟨fun _ _ => rfl, fun _ _ _ => rfl⟩

/-- C9: string-valued variable-map entries are coerced with `parseFloat`
before tokenization — a string with a numeric prefix (`"5abc"`) becomes a
usable numeric variable, while a string with no numeric prefix is silently
dropped, so expressions referencing it fail as an unknown identifier. -/
theorem c9_string_coercion :
    (∀ (k s : String) (q : ℚ), parseFloatQ s = some q →
      toNumericVariables [(k, VarVal.str s)] = [(k, q)])
    ∧ (∀ (k s : String), parseFloatQ s = none →
      toNumericVariables [(k, VarVal.str s)] = [])
    ∧ parseFloatQ "5abc" = some 5
    ∧ evaluateExpression "x * 2" [("x", .str "5abc")] = some 10
    ∧ parseFloatQ "abc" = none
    ∧ evaluateExpression "x * 2" [("x", .str "abc")] = none
    ∧ tokenize "x * 2" (toNumericVariables [("x", VarVal.str "abc")]) = none := by
  refine ⟨?_, ?_, by decide, by decide, by decide, by decide, by decide⟩
  · intro k s q h
    simp [toNumericVariables, h]
  · intro k s h
    simp [toNumericVariables, h]

/-- Witness for C9's coercion lemma at the concrete string `"5abc"`. -/
theorem c9_string_coercion_witness :
    toNumericVariables [("x", VarVal.str "5abc")] = [("x", 5)] :=
  c9_string_coercion.1 "x" "5abc" 5 (by decide)

end ClaimTheorems

section ClaimTheoremsCalculator

attribute [local semireducible] Rat.mul Rat.add Rat.sub Rat.inv

/-- C1: with a non-empty formula list, if any required input of the primary
formula is null/undefined/empty-string in the profile, `calculateImpact`
returns the cannot-compute variant whose `missingInputs` enumerates exactly
the absent required fields, each labelled from the static field-label table
with fallback to the raw field name — and the result is independent of the
expression evaluator, which is therefore never invoked. -/
theorem c1_missing_input_gating :
    ∀ (profile : UserProfile) (parameters : PolicyParameters)
      (f : CalculationFormula) (fs : List CalculationFormula),
      (∃ input ∈ f.requiredInputs, isAbsentVal (profileGet profile input) = true) →
      (∀ ev, calculateImpactWith ev profile parameters (f :: fs) =
        .cannotCompute
          ("Missing required profile information: " ++
            String.intercalate ", "
              ((checkRequiredInputs profile f.requiredInputs).map
                (fun m => m.fieldLabel)))
          (checkRequiredInputs profile f.requiredInputs)
          (some ("This policy calculation requires: " ++
            String.intercalate ", " f.requiredInputs)))
      ∧ (∀ input,
          input ∈ (checkRequiredInputs profile f.requiredInputs).map
            (fun m => m.field) ↔
          (input ∈ f.requiredInputs ∧ isAbsentVal (profileGet profile input) = true))
      ∧ (∀ m ∈ checkRequiredInputs profile f.requiredInputs,
          m.fieldLabel = (lookupPair FIELD_LABELS m.field).getD m.field) := by
  intro profile parameters f fs hex
  have hne : checkRequiredInputs profile f.requiredInputs ≠ [] := by
    obtain ⟨input, hin, habs⟩ := hex
    intro hnil
    rw [checkRequiredInputs, List.filterMap_eq_nil_iff] at hnil
    have := hnil input hin
    rw [if_pos habs] at this
    cases this
  have hlen : 0 < (checkRequiredInputs profile f.requiredInputs).length :=
    List.length_pos.mpr hne
  refine ⟨?_, ?_, ?_⟩
  · intro ev
    simp only [calculateImpactWith, if_pos hlen]
  · intro input
    constructor
    · intro hmem
      rw [List.mem_map] at hmem
      obtain ⟨m, hm, hfield⟩ := hmem
      rw [checkRequiredInputs, List.mem_filterMap] at hm
      obtain ⟨a, ha, hif⟩ := hm
      by_cases hab : isAbsentVal (profileGet profile a) = true
      · rw [if_pos hab] at hif
        injection hif with hm'
        subst hm'
        simp only at hfield
        subst hfield
        exact ⟨ha, hab⟩
      · rw [if_neg hab] at hif
        cases hif
    · rintro ⟨hin, hab⟩
      rw [List.mem_map]
      refine ⟨{ field := input,
                fieldLabel := jsOrString (lookupPair FIELD_LABELS input) input,
                reason := "Required for impact calculation",
                impact := "Cannot compute accurate impact without this information",
                isRequired := true }, ?_, rfl⟩
      rw [checkRequiredInputs, List.mem_filterMap]
      exact ⟨input, hin, by rw [if_pos hab]⟩
  · intro m hm
    rw [checkRequiredInputs, List.mem_filterMap] at hm
    obtain ⟨a, ha, hif⟩ := hm
    by_cases hab : isAbsentVal (profileGet profile a) = true
    · rw [if_pos hab] at hif
      injection hif with hm'
      subst hm'
      exact jsOrString_eq_getD a a (fieldLabels_ne_empty a)
    · rw [if_neg hab] at hif
      cases hif

/-- Witness for C1: an empty profile against the formula requiring
`household_income`, with an arbitrary evaluator that would succeed —
the gate fires first. -/
theorem c1_missing_input_gating_witness :
    calculateImpactWith (fun _ _ => some 42) emptyProfile noParams
      [taxCutFormula] =
      .cannotCompute "Missing required profile information: Household Income"
        [{ field := "household_income", fieldLabel := "Household Income",
           reason := "Required for impact calculation",
           impact := "Cannot compute accurate impact without this information",
           isRequired := true }]
        (some "This policy calculation requires: household_income") := by
  have h := (c1_missing_input_gating emptyProfile noParams taxCutFormula []
    ⟨"household_income", by decide, by decide⟩).1 (fun _ _ => some 42)
  exact h.trans (by decide)

/-- C5's general machinery and amended concrete example: formulas run in
list order, each successful result is bound under its `formulaId` (visible
to later formulas), a failure aborts the whole call naming the failing
formula, and — with `household_income` in place of the spec's unbindable
`income` — the chained example yields step results `120` and `10`, the
latter as an additional dimension. -/
theorem c5_chained_formulas :
    (∀ (ev : String → List (String × VarVal) → Option ℚ) (st : ExecState)
      (i : ℕ) (f : CalculationFormula) (rest : List CalculationFormula) (r : ℚ),
      ev f.expression st.vars = some r →
      execFormulas ev st i (f :: rest) =
        execFormulas ev (advanceState st i f r) (i + 1) rest)
    ∧ (∀ (st : ExecState) (i : ℕ) (f : CalculationFormula) (r : ℚ),
      lookupPair (advanceState st i f r).vars f.formulaId = some (VarVal.num r))
    ∧ (∀ (ev : String → List (String × VarVal) → Option ℚ) (st : ExecState)
      (i : ℕ) (f : CalculationFormula) (rest : List CalculationFormula),
      ev f.expression st.vars = none →
      execFormulas ev st i (f :: rest) = .error f.name)
    ∧ (∀ (profile : UserProfile) (parameters : PolicyParameters)
        (f : CalculationFormula) (fs : List CalculationFormula) (n : String),
      checkRequiredInputs profile f.requiredInputs = [] →
      execFormulas evaluateExpression
        { vars := extractProfileVariables profile, steps := [],
          additionalDimensions := [], finalResult := none } 0 (f :: fs) =
        .error n →
      calculateImpact profile parameters (f :: fs) =
        .cannotCompute ("Failed to evaluate formula: " ++ n) [] none)
    ∧ resultStepValues (calculateImpact prof1200 noParams [chainA, chainB]) =
        some [120, 10]
    ∧ resultDimensionValues
        (calculateImpact prof1200 noParams [chainA, chainB]) = some [10]
    ∧ resultPrimaryValue (calculateImpact prof1200 noParams [chainA, chainB]) =
        some 120 := by
  refine ⟨?_, ?_, ?_, ?_, by decide, by decide, by decide⟩
  · intro ev st i f rest r h
    simp [execFormulas, h]
  · intro st i f r
    simp [advanceState, lookupPair_upsert_self]
  · intro ev st i f rest h
    simp [execFormulas, h]
  · intro profile parameters f fs n h1 h2
    unfold calculateImpact calculateImpactWith
    simp only [h1, List.length_nil, lt_irrefl, if_false, h2]

/-- Witness for C5's loop-step lemma at a concrete evaluator and state. -/
theorem c5_chained_formulas_witness :
    execFormulas (fun _ _ => some 7)
      { vars := [], steps := [], additionalDimensions := [],
        finalResult := none } 0 [chainB] =
      .ok (advanceState
        { vars := [], steps := [], additionalDimensions := [],
          finalResult := none } 0 chainB 7) := by
  have h := c5_chained_formulas.1 (fun _ _ => some 7)
    { vars := [], steps := [], additionalDimensions := [], finalResult := none }
    0 chainB [] 7 rfl
  exact h.trans (by rfl)

/-- C5's original concrete example is impossible on the code: no profile
variable is ever named `income`, so formula A (`"income * 0.1"`) fails to
evaluate and the whole call is `cannot_compute`, not a computed result with
step values 120 and 10. -/
theorem c5_chained_formulas_counterexample :
    calculateImpact prof1200both noParams [chainAIncome, chainB] =
      .cannotCompute "Failed to evaluate formula: A" [] none
    ∧ lookupPair (extractProfileVariables prof1200both) "income" = none := by
  exact ⟨by decide, by decide⟩

/-- C6: on a computed result the direction comes from the primary formula's
`impactSemantics` (default `benefit`): above the `|result| > 100`
materiality threshold, benefit maps positive results to `positive` and
non-positive to `negative`, burden inverts that; at or below the threshold,
zero is `neutral` and a nonzero result is `positive` exactly when (positive
and benefit) or (negative and burden).  An identical positive result flips
from `positive` to `negative` when semantics flips from benefit to burden. -/
theorem c6_direction_classification :
    (∀ (r : ℚ) (s : ImpactSemantics),
      (100 < |r| →
        classifyImpactDirection r s =
          (if s = .benefit then (if 0 < r then .positive else .negative)
           else (if 0 < r then .negative else .positive)))
      ∧ (|r| ≤ 100 →
        classifyImpactDirection r s =
          (if r = 0 then .neutral
           else if (0 < r ∧ s = .benefit) ∨ (r < 0 ∧ s = .burden) then .positive
           else .negative))
      ∧ (0 < r →
        classifyImpactDirection r .benefit = .positive ∧
        classifyImpactDirection r .burden = .negative))
    ∧ resultDirection (calculateImpact prof80k noParams [taxCutFormula]) =
        some .positive
    ∧ resultDirection (calculateImpact prof80k noParams [taxBurdenFormula]) =
        some .negative
    ∧ resultDirection (calculateImpact prof80k noParams [taxDefaultFormula]) =
        some .positive := by
  refine ⟨?_, by decide, by decide, by decide⟩
  intro r s
  refine ⟨?_, ?_, ?_⟩
  · intro h
    have habs : ¬ |r| ≤ 100 := not_le.mpr h
    cases s <;> simp [classifyImpactDirection, habs]
  · intro habs
    by_cases hr0 : r = 0
    · subst hr0
      norm_num [classifyImpactDirection]
    · rcases lt_trichotomy r 0 with hr | hr | hr
      · have h3 : ¬ 0 < r := not_lt.mpr hr.le
        cases s <;>
          simp [classifyImpactDirection, habs, hr0, h3, hr]
      · exact absurd hr hr0
      · have h3 : ¬ r < 0 := not_lt.mpr hr.le
        cases s <;>
          simp [classifyImpactDirection, habs, hr0, h3, hr]
  · intro hr
    have hne : r ≠ 0 := ne_of_gt hr
    by_cases habs : |r| ≤ 100 <;>
      constructor <;>
        simp [classifyImpactDirection, habs, hne, hr]

/-- Witness for C6 at concrete results on both sides of the threshold. -/
theorem c6_direction_classification_witness :
    classifyImpactDirection 200 .benefit = .positive ∧
    classifyImpactDirection 200 .burden = .negative ∧
    classifyImpactDirection 50 .burden = .negative := by
  refine ⟨?_, ?_, ?_⟩
  · exact ((c6_direction_classification.1 200 .benefit).2.2 (by norm_num)).1
  · exact ((c6_direction_classification.1 200 .burden).2.2 (by norm_num)).2
  · have h := (c6_direction_classification.1 50 .burden).2.1 (by norm_num)
    exact h.trans (by decide)

/-- The impact-unit property of one result, relative to the primary
formula: `dollars_annual` exactly for `dollars` output, `percentage` for
everything else, and never the three other unit values the schema admits. -/
def impactUnitOk (f : CalculationFormula) : ImpactCalculationResult → Prop
  | .computed r =>
    r.impactUnit =
      (if f.outputUnit = .dollars then .dollars_annual else .percentage) ∧
    (r.impactUnit = .dollars_annual ↔ f.outputUnit = .dollars) ∧
    r.impactUnit ≠ .dollars_monthly ∧ r.impactUnit ≠ .dollars_one_time ∧
    r.impactUnit ≠ .qualitative
  | .cannotCompute _ _ _ => True

/-- C10: on every computed result the impact unit is `dollars_annual`
exactly when the primary formula's output unit is `dollars`, and
`percentage` otherwise (including `boolean`); `dollars_monthly`,
`dollars_one_time` and `qualitative` are never produced. -/
theorem c10_impact_unit :
    (∀ (profile : UserProfile) (parameters : PolicyParameters)
      (f : CalculationFormula) (fs : List CalculationFormula),
      impactUnitOk f (calculateImpact profile parameters (f :: fs)))
    ∧ resultUnit (calculateImpact prof80k noParams [taxCutFormula]) =
        some .dollars_annual
    ∧ resultUnit (calculateImpact prof80k noParams
        [{ taxCutFormula with outputUnit := .percentage }]) = some .percentage
    ∧ resultUnit (calculateImpact prof80k noParams
        [{ taxCutFormula with outputUnit := .boolean }]) = some .percentage := by
  refine ⟨?_, by decide, by decide, by decide⟩
  intro profile parameters f fs
  by_cases hm : 0 < (checkRequiredInputs profile f.requiredInputs).length
  · simp [calculateImpact, calculateImpactWith, hm, impactUnitOk]
  · cases hex : execFormulas evaluateExpression
        { vars := extractProfileVariables profile, steps := [],
          additionalDimensions := [], finalResult := none } 0 (f :: fs) with
    | error n =>
      simp [calculateImpact, calculateImpactWith, hm, hex, impactUnitOk]
    | ok st =>
      cases hfr : st.finalResult with
      | none =>
        simp [calculateImpact, calculateImpactWith, hm, hex, hfr, impactUnitOk]
      | some fr =>
        by_cases hd : f.outputUnit = OutputUnit.dollars <;>
          simp [calculateImpact, calculateImpactWith, hm, hex, hfr,
            impactUnitOk, hd]

end ClaimTheoremsCalculator
